import Mathlib

/-
Verification of the q2-qsip2 plugin registration modules.

Shallow embedding of:
  src/q2_qsip2/plugin_setup.py
  src/q2_qsip2/types/_deferred_setup/__init__.py

Both files are straight-line Python module bodies whose only effect is to
build a QIIME2 `Plugin` object and populate its registries.  We embed each
top-level statement of the two modules (the deferred-setup module is
executed inline at the point of its `importlib.import_module` call) as a
`Stmt`, and module evaluation as a left fold of `applyStmt` over the
statement list, acting on a host state that carries the plugin object, the
loaded citation keys, and an arbitrary further component `hostData`
standing for everything else the host owns (artifacts, qSIP data, caches).
-/

namespace Q2Qsip2

/-- The three type tags imported on line 15 of plugin_setup.py
(`from q2_qsip2.types import QSIP2Data, Unfiltered, Filtered, EAF`).
In the source they are opaque markers handed to the `QSIP2Data` type
constructor. -/
inductive Tag
  | Unfiltered
  | Filtered
  | EAF
  deriving DecidableEq

/-- Semantic types appearing in the registrations of plugin_setup.py:
`QSIP2Data[tag]` and `FeatureTable[Frequency]` (line 44). -/
inductive SemanticType
  | QSIP2Data (tag : Tag)
  | FeatureTableFrequency
  deriving DecidableEq

/-- Parameter types appearing in the registrations
(`Metadata`, `Str`, `Int`, `Float`, `List[Str]`, imported on line 11). -/
inductive ParamType
  | Metadata
  | Str
  | Int
  | Float
  | ListStr
  deriving DecidableEq

/-- The functions imported by plugin_setup.py on lines 16-23: four from
`q2_qsip2.workflow` and six from `q2_qsip2.visualizers._visualizers`. -/
inductive Func
  | standard_workflow
  | create_qsip_data
  | subset_and_filter
  | resample_and_calculate_EAF
  | plot_weighted_average_densities
  | plot_sample_curves
  | plot_density_outliers
  | show_comparison_groups
  | plot_filtered_features
  | plot_excess_atom_fractions
  deriving DecidableEq

/-- The modules of the repository relevant to where a registered function
is implemented. -/
inductive SourceModule
  | workflow
  | visualizers
  | plugin_setup
  deriving DecidableEq

/-- Module in which each imported function is implemented, read off
the import statements on lines 16-23 of plugin_setup.py: the workflow
functions come from `q2_qsip2.workflow`, the plotting functions from
`q2_qsip2.visualizers._visualizers`.  None is defined in plugin_setup.py
itself. -/
def definingModule : Func → SourceModule
  | .standard_workflow => .workflow
  | .create_qsip_data => .workflow
  | .subset_and_filter => .workflow
  | .resample_and_calculate_EAF => .workflow
  | .plot_weighted_average_densities => .visualizers
  | .plot_sample_curves => .visualizers
  | .plot_density_outliers => .visualizers
  | .show_comparison_groups => .visualizers
  | .plot_filtered_features => .visualizers
  | .plot_excess_atom_fractions => .visualizers

/-- The list of names bound by the import from `q2_qsip2.workflow`
(plugin_setup.py lines 16-19). -/
def workflowImports : List Func :=
  [.standard_workflow, .create_qsip_data, .subset_and_filter,
   .resample_and_calculate_EAF]

/-- The list of names bound by the import from
`q2_qsip2.visualizers._visualizers` (plugin_setup.py lines 20-23). -/
def visualizerImports : List Func :=
  [.plot_weighted_average_densities, .plot_sample_curves,
   .plot_density_outliers, .show_comparison_groups,
   .plot_filtered_features, .plot_excess_atom_fractions]

/-- One `plugin.methods.register_function(...)` call: the keyword
arguments that carry semantic content (function, inputs, parameters,
outputs, name, citations).  Description strings are omitted as inert
prose. -/
structure MethodRegistration where
  function : Func
  inputs : List (String × SemanticType)
  parameters : List (String × ParamType)
  outputs : List (String × SemanticType)
  name : String
  citations : List String
  deriving DecidableEq

/-- One `plugin.visualizers.register_function(...)` call.  Visualizer
registrations in the source carry no `outputs` argument. -/
structure VisualizerRegistration where
  function : Func
  inputs : List (String × SemanticType)
  parameters : List (String × ParamType)
  name : String
  citations : List String
  deriving DecidableEq

/-- Named semantic-type constructors registered with the host
(deferred setup line 17 registers `QSIP2Data`). -/
inductive TypeName
  | QSIP2Data
  deriving DecidableEq

/-- The serialization formats of the repository (deferred setup
lines 19-21). -/
inductive Format
  | QSIP2DataFormat
  | QSIP2DataDirectoryFormat
  deriving DecidableEq

/-- One `plugin.register_artifact_class(...)` call
(deferred setup lines 23-27). -/
structure ArtifactClassRegistration where
  semanticType : TypeName
  directory_format : Format
  description : String
  deriving DecidableEq

/-- The QIIME2 plugin object as populated by this repository: the
constructor metadata of plugin_setup.py lines 28-39 and the registries the
two modules append to. -/
structure Plugin where
  name : String
  version : String
  website : String
  package : String
  short_description : String
  citations : List String
  methods : List MethodRegistration
  visualizers : List VisualizerRegistration
  semantic_types : List TypeName
  formats : List Format
  artifact_classes : List ArtifactClassRegistration
  deriving DecidableEq

/-- A plugin object with empty metadata and registries, the value of the
`plugin` binding before `Plugin(...)` runs. -/
def emptyPlugin : Plugin :=
  { name := "", version := "", website := "", package := ""
    short_description := "", citations := []
    methods := [], visualizers := [], semantic_types := []
    formats := [], artifact_classes := [] }

/-- One top-level statement of the two module bodies. -/
inductive Stmt
  | loadCitations
  | createPlugin
  | registerMethod (r : MethodRegistration)
  | registerVisualizer (r : VisualizerRegistration)
  | registerSemanticTypes (ts : List TypeName)
  | registerFormats (fs : List Format)
  | registerArtifactClass (a : ArtifactClassRegistration)
  | importTransformersModule
  deriving DecidableEq

/-- Host state threaded through module evaluation: the loaded citation
keys, the plugin object, and `hostData`, an arbitrary stand-in for every
other component the host owns (artifact cache, provenance, qSIP data). -/
structure HostState (α : Type) where
  citations : List String
  plugin : Plugin
  hostData : α
  deriving DecidableEq

/-- Modelled from the spec: the file `citations.bib` shipped with the
package is not under src/; plugin_setup.py line 26 loads it and line 38
accesses the key `Caporaso-Bolyen-2024`, so the loaded collection is
modelled as providing exactly that key. -/
def citationsBibKeys : List String := ["Caporaso-Bolyen-2024"]

/-- Effect of one statement on the host state, read off the source.
`loadCitations` is line 26 of plugin_setup.py; `createPlugin` is the
`Plugin(...)` construction of lines 28-39 (with `version=__version__`
passed in, since `__version__` is defined outside src/); the register
statements append one entry to the corresponding registry; the final
`importlib.import_module` of the transformers module (deferred setup
line 29) registers no method, visualizer, type, or format. -/
def applyStmt (version : String) (σ : HostState α) : Stmt → HostState α
  | .loadCitations => { σ with citations := citationsBibKeys }
  | .createPlugin =>
      { σ with plugin :=
        { name := "qsip2"
          version := version
          website := "www.qiime2.org"
          package := "q2_qsip2"
          short_description := "Analyze qSIP data."
          citations := ["Caporaso-Bolyen-2024"]
          methods := [], visualizers := [], semantic_types := []
          formats := [], artifact_classes := [] } }
  | .registerMethod r =>
      { σ with plugin :=
        { σ.plugin with methods := σ.plugin.methods ++ [r] } }
  | .registerVisualizer r =>
      { σ with plugin :=
        { σ.plugin with visualizers := σ.plugin.visualizers ++ [r] } }
  | .registerSemanticTypes ts =>
      { σ with plugin :=
        { σ.plugin with semantic_types := σ.plugin.semantic_types ++ ts } }
  | .registerFormats fs =>
      { σ with plugin :=
        { σ.plugin with formats := σ.plugin.formats ++ fs } }
  | .registerArtifactClass a =>
      { σ with plugin :=
        { σ.plugin with
            artifact_classes := σ.plugin.artifact_classes ++ [a] } }
  | .importTransformersModule => σ

/-- Evaluate a list of statements in order. -/
def runStmts (version : String) (l : List Stmt) (σ : HostState α) :
    HostState α :=
  l.foldl (applyStmt version) σ

/-
The nine registration calls of plugin_setup.py.  The imported names
`Unfiltered`, `Filtered`, `EAF` are opaque in the source, so each
registration is written with the tags it mentions as parameters; the
module body instantiates them with the concrete tags, exactly matching
the source text.
-/

/-- Registration of `create_qsip_data` (plugin_setup.py lines 41-80). -/
def create_qsip_data_reg (u : Tag) : MethodRegistration :=
  { function := .create_qsip_data
    inputs := [("table", .FeatureTableFrequency)]
    parameters :=
      [("sample_metadata", .Metadata),
       ("source_metadata", .Metadata),
       ("source_mat_id_column", .Str),
       ("isotope_column", .Str),
       ("isotopolog_column", .Str),
       ("gradient_position_column", .Str),
       ("gradient_pos_density_column", .Str),
       ("gradient_pos_amt_column", .Str)]
    outputs := [("qsip_data", .QSIP2Data u)]
    name := "Bundle your qSIP metadata and feature table."
    citations := [] }

/-- Registration of `subset_and_filter` (plugin_setup.py lines 82-129). -/
def subset_and_filter_reg (u f : Tag) : MethodRegistration :=
  { function := .subset_and_filter
    inputs := [("qsip_data", .QSIP2Data u)]
    parameters :=
      [("unlabeled_sources", .ListStr),
       ("labeled_sources", .ListStr),
       ("min_unlabeled_sources", .Int),
       ("min_labeled_sources", .Int),
       ("min_unlabeled_fractions", .Int),
       ("min_labeled_fractions", .Int)]
    outputs := [("filtered_qsip_data", .QSIP2Data f)]
    name := "Subset sources and filter features to prepare for comparison."
    citations := [] }

/-- Registration of `resample_and_calculate_EAF`
(plugin_setup.py lines 131-161). -/
def resample_and_calculate_EAF_reg (f e : Tag) : MethodRegistration :=
  { function := .resample_and_calculate_EAF
    inputs := [("filtered_qsip_data", .QSIP2Data f)]
    parameters := [("resamples", .Int), ("random_seed", .Int)]
    outputs := [("eaf_qsip_data", .QSIP2Data e)]
    name := "Calculate excess atom fraction (EAF)."
    citations := [] }

/-- Registration of `plot_weighted_average_densities`
(plugin_setup.py lines 163-184). -/
def plot_weighted_average_densities_reg (u : Tag) : VisualizerRegistration :=
  { function := .plot_weighted_average_densities
    inputs := [("qsip_data", .QSIP2Data u)]
    parameters := [("group", .Str)]
    name := "Plot weighted average densities."
    citations := [] }

/-- Registration of `plot_sample_curves`
(plugin_setup.py lines 186-201). -/
def plot_sample_curves_reg (u : Tag) : VisualizerRegistration :=
  { function := .plot_sample_curves
    inputs := [("qsip_data", .QSIP2Data u)]
    parameters := []
    name := "Plot per-source density curves."
    citations := [] }

/-- Registration of `plot_density_outliers`
(plugin_setup.py lines 203-219). -/
def plot_density_outliers_reg (u : Tag) : VisualizerRegistration :=
  { function := .plot_density_outliers
    inputs := [("qsip_data", .QSIP2Data u)]
    parameters := []
    name := "Plot per-source density outliers."
    citations := [] }

/-- Registration of `show_comparison_groups`
(plugin_setup.py lines 221-242). -/
def show_comparison_groups_reg (u : Tag) : VisualizerRegistration :=
  { function := .show_comparison_groups
    inputs := [("qsip_data", .QSIP2Data u)]
    parameters := [("groups", .ListStr)]
    name := "Show available comparison groupings."
    citations := [] }

/-- Registration of `plot_filtered_features`
(plugin_setup.py lines 244-260). -/
def plot_filtered_features_reg (f : Tag) : VisualizerRegistration :=
  { function := .plot_filtered_features
    inputs := [("filtered_qsip_data", .QSIP2Data f)]
    parameters := []
    name := "Visualize feature retention."
    citations := [] }

/-- Registration of `plot_excess_atom_fractions`
(plugin_setup.py lines 262-290). -/
def plot_excess_atom_fractions_reg (e : Tag) : VisualizerRegistration :=
  { function := .plot_excess_atom_fractions
    inputs := [("eaf_qsip_data", .QSIP2Data e)]
    parameters := [("num_top", .Int), ("confidence_interval", .Float)]
    name := "Visualize per-taxon excess atom fractions."
    citations := [] }

/-- The combined top-level statement sequence of plugin_setup.py, with the
body of `q2_qsip2.types._deferred_setup` inlined at the position of the
`importlib.import_module` call on line 292 (Python executes an imported
module's body at the point of import).  The three opaque tag names are
parameters, instantiated by `moduleBody`. -/
def moduleBodyWith (u f e : Tag) : List Stmt :=
  [.loadCitations,
   .createPlugin,
   .registerMethod (create_qsip_data_reg u),
   .registerMethod (subset_and_filter_reg u f),
   .registerMethod (resample_and_calculate_EAF_reg f e),
   .registerVisualizer (plot_weighted_average_densities_reg u),
   .registerVisualizer (plot_sample_curves_reg u),
   .registerVisualizer (plot_density_outliers_reg u),
   .registerVisualizer (show_comparison_groups_reg u),
   .registerVisualizer (plot_filtered_features_reg f),
   .registerVisualizer (plot_excess_atom_fractions_reg e),
   .registerSemanticTypes [.QSIP2Data],
   .registerFormats [.QSIP2DataFormat, .QSIP2DataDirectoryFormat],
   .registerArtifactClass
     { semanticType := .QSIP2Data
       directory_format := .QSIP2DataDirectoryFormat
       description := "A serialized qSIP2 data object." },
   .importTransformersModule]

/-- The statement sequence with the tags as written in the source:
`Unfiltered`, `Filtered`, `EAF`. -/
def moduleBody : List Stmt :=
  moduleBodyWith .Unfiltered .Filtered .EAF

/-- Evaluating the whole setup on a host state. -/
def evalSetup (version : String) (σ : HostState α) : HostState α :=
  runStmts version moduleBody σ

/-- Initial host state: no citations loaded, plugin binding not yet
created, arbitrary host-owned data. -/
def initState (d : α) : HostState α :=
  { citations := [], plugin := emptyPlugin, hostData := d }

/-- The plugin object after the setup modules have run. -/
def finalPlugin (version : String) : Plugin :=
  (evalSetup version (initState ())).plugin

/-
Opacity of the tags.  The source never inspects a tag: every occurrence
is an argument of the `QSIP2Data` type constructor.  We express this as
parametricity of the module body in the three tag names, via a relabeling
action on the embedded data.
-/

/-- Relabeling of tags under a semantic type. -/
def SemanticType.mapTag (ρ : Tag → Tag) : SemanticType → SemanticType
  | .QSIP2Data t => .QSIP2Data (ρ t)
  | .FeatureTableFrequency => .FeatureTableFrequency

/-- Relabeling of tags under a method registration. -/
def MethodRegistration.mapTag (ρ : Tag → Tag) (r : MethodRegistration) :
    MethodRegistration :=
  { r with
      inputs := r.inputs.map (fun p => (p.1, p.2.mapTag ρ))
      outputs := r.outputs.map (fun p => (p.1, p.2.mapTag ρ)) }

/-- Relabeling of tags under a visualizer registration. -/
def VisualizerRegistration.mapTag (ρ : Tag → Tag)
    (r : VisualizerRegistration) : VisualizerRegistration :=
  { r with inputs := r.inputs.map (fun p => (p.1, p.2.mapTag ρ)) }

/-- Relabeling of tags under a statement. -/
def Stmt.mapTag (ρ : Tag → Tag) : Stmt → Stmt
  | .registerMethod r => .registerMethod (r.mapTag ρ)
  | .registerVisualizer r => .registerVisualizer (r.mapTag ρ)
  | s => s

/-
Exception semantics, for the error-handling claim.  A Python module body
is a statement sequence in which an exception raised by any statement
aborts the rest of the sequence and propagates to the importer; the
module contains no try/except.  We run the statement list under an
arbitrary fallible interpreter of single statements.
-/

/-- Run a statement list under a fallible statement interpreter,
stopping at the first error, as Python does for an uncaught exception. -/
def runStmtsE (interp : Stmt → HostState α → Except ε (HostState α)) :
    List Stmt → HostState α → Except ε (HostState α)
  | [], σ => Except.ok σ
  | s :: rest, σ =>
    match interp s σ with
    | Except.error e => Except.error e
    | Except.ok σ2 => runStmtsE interp rest σ2

/-- A fallible interpreter in which the citation load raises; used to
instantiate the error-propagation theorem. -/
def failingLoadInterp (s : Stmt) (σ : HostState Unit) :
    Except String (HostState Unit) :=
  match s with
  | .loadCitations => Except.error "citation load failure"
  | s => Except.ok (applyStmt "1.0" σ s)

/-- A statement is a function registration when it is one of the
`register_function` calls on `plugin.methods` or `plugin.visualizers`. -/
def Stmt.isFunctionRegistration : Stmt → Bool
  | .registerMethod _ => true
  | .registerVisualizer _ => true
  | _ => false

/-- A statement is a type-level registration when it registers the
semantic type, the formats, or the artifact class. -/
def Stmt.isTypeLevelRegistration : Stmt → Bool
  | .registerSemanticTypes _ => true
  | .registerFormats _ => true
  | .registerArtifactClass _ => true
  | _ => false

/-- A statement is the format registration. -/
def Stmt.isFormatRegistration : Stmt → Bool
  | .registerFormats _ => true
  | _ => false

/-- A statement is the import of the transformers module. -/
def Stmt.isTransformersImport : Stmt → Bool
  | .importTransformersModule => true
  | _ => false

/-
Theorems.
-/

/-- Splitting lemma for `runStmtsE`: running an appended list runs the
first part and, only if it succeeds, the second part on its result. -/
theorem runStmtsE_append
    (interp : Stmt → HostState α → Except ε (HostState α))
    (l1 l2 : List Stmt) (σ : HostState α) :
    runStmtsE interp (l1 ++ l2) σ =
      match runStmtsE interp l1 σ with
      | Except.error e => Except.error e
      | Except.ok σ2 => runStmtsE interp l2 σ2 := by
  induction l1 generalizing σ with
  | nil => simp [runStmtsE]
  | cons s rest ih =>
    simp only [List.cons_append, runStmtsE]
    cases interp s σ with
    | error e => rfl
    | ok σ2 => exact ih σ2

/-- C1: evaluating the plugin setup module registers exactly the three
methods `create_qsip_data`, `subset_and_filter`,
`resample_and_calculate_EAF` (in that order) and exactly the six
visualizers `plot_weighted_average_densities`, `plot_sample_curves`,
`plot_density_outliers`, `show_comparison_groups`,
`plot_filtered_features`, `plot_excess_atom_fractions`, and exposes no
other operations: the method and visualizer registries are exactly these
lists. -/
theorem c1_registered_operations (version : String) :
    (finalPlugin version).methods.map (fun r => r.function) =
      [.create_qsip_data, .subset_and_filter, .resample_and_calculate_EAF]
    ∧ (finalPlugin version).visualizers.map (fun r => r.function) =
      [.plot_weighted_average_densities, .plot_sample_curves,
       .plot_density_outliers, .show_comparison_groups,
       .plot_filtered_features, .plot_excess_atom_fractions] :=
  ⟨rfl, rfl⟩

/-- C2: the three methods chain by semantic type: `create_qsip_data` has
the single output type `QSIP2Data[Unfiltered]`, which is the single input
type of `subset_and_filter`; `subset_and_filter` has the single output
type `QSIP2Data[Filtered]`, which is the single input type of
`resample_and_calculate_EAF`; and `resample_and_calculate_EAF` has the
single output type `QSIP2Data[EAF]`. -/
theorem c2_method_type_chain (version : String) :
    (finalPlugin version).methods.map
        (fun r => (r.inputs.map Prod.snd, r.outputs.map Prod.snd)) =
      [([SemanticType.FeatureTableFrequency],
        [SemanticType.QSIP2Data .Unfiltered]),
       ([SemanticType.QSIP2Data .Unfiltered],
        [SemanticType.QSIP2Data .Filtered]),
       ([SemanticType.QSIP2Data .Filtered],
        [SemanticType.QSIP2Data .EAF])]
    ∧ ((finalPlugin version).methods.map
        (fun r => r.outputs.map Prod.snd)).take 2 =
      ((finalPlugin version).methods.map
        (fun r => r.inputs.map Prod.snd)).drop 1 :=
  ⟨rfl, rfl⟩

/-- C3: every function bound in a registration is implemented outside the
registration module: each registered method comes from
`q2_qsip2.workflow`, each registered visualizer from
`q2_qsip2.visualizers._visualizers`, and no registered function is
implemented in plugin_setup.py itself. -/
theorem c3_functions_imported (version : String) :
    (finalPlugin version).methods.map
        (fun r => definingModule r.function) =
      [.workflow, .workflow, .workflow]
    ∧ (finalPlugin version).visualizers.map
        (fun r => definingModule r.function) =
      [.visualizers, .visualizers, .visualizers,
       .visualizers, .visualizers, .visualizers]
    ∧ (((finalPlugin version).methods.map (fun r => r.function)
          ++ (finalPlugin version).visualizers.map (fun r => r.function)
         ).map definingModule).contains SourceModule.plugin_setup = false :=
  ⟨rfl, rfl, rfl⟩

/-- C4: the deferred-setup module registers with the host the semantic
type `QSIP2Data`, the two formats `QSIP2DataFormat` and
`QSIP2DataDirectoryFormat`, and an artifact class binding `QSIP2Data` to
`QSIP2DataDirectoryFormat` with description
"A serialized qSIP2 data object.". -/
theorem c4_types_and_formats (version : String) :
    (finalPlugin version).semantic_types = [.QSIP2Data]
    ∧ (finalPlugin version).formats =
      [.QSIP2DataFormat, .QSIP2DataDirectoryFormat]
    ∧ (finalPlugin version).artifact_classes =
      [{ semanticType := .QSIP2Data
         directory_format := .QSIP2DataDirectoryFormat
         description := "A serialized qSIP2 data object." }] :=
  ⟨rfl, rfl, rfl⟩

/-- C5: the tags `Unfiltered`, `Filtered`, `EAF` are opaque in the module
body: every occurrence is an argument of the `QSIP2Data` constructor, and
no statement inspects or branches on a tag, so the body is parametric in
the three tag names — relabeling the tags uniformly commutes with
building the body, and the concrete body is the parametric body at the
three imported tags. -/
theorem c5_tags_opaque (ρ : Tag → Tag) (u f e : Tag) :
    moduleBodyWith (ρ u) (ρ f) (ρ e) =
      (moduleBodyWith u f e).map (Stmt.mapTag ρ)
    ∧ moduleBody = moduleBodyWith .Unfiltered .Filtered .EAF :=
  ⟨rfl, rfl⟩

/-- C6: evaluating the setup touches nothing the host owns beyond the
plugin object: the host-data component is unchanged by the whole module
and by every single statement, and every statement other than the plugin
construction only appends to the plugin registries. -/
theorem c6_frame {α : Type} (version : String) (σ : HostState α)
    (s : Stmt) :
    (evalSetup version σ).hostData = σ.hostData
    ∧ (applyStmt version σ s).hostData = σ.hostData
    ∧ (s ≠ Stmt.createPlugin →
        σ.plugin.methods <+: (applyStmt version σ s).plugin.methods
        ∧ σ.plugin.visualizers <+:
            (applyStmt version σ s).plugin.visualizers
        ∧ σ.plugin.semantic_types <+:
            (applyStmt version σ s).plugin.semantic_types
        ∧ σ.plugin.formats <+: (applyStmt version σ s).plugin.formats
        ∧ σ.plugin.artifact_classes <+:
            (applyStmt version σ s).plugin.artifact_classes) := by
  refine ⟨rfl, ?_, ?_⟩
  · cases s <;> rfl
  · intro h
    cases s with
    | loadCitations =>
        exact ⟨List.prefix_rfl, List.prefix_rfl, List.prefix_rfl,
               List.prefix_rfl, List.prefix_rfl⟩
    | createPlugin => exact absurd rfl h
    | registerMethod r =>
        exact ⟨⟨[r], rfl⟩, List.prefix_rfl, List.prefix_rfl,
               List.prefix_rfl, List.prefix_rfl⟩
    | registerVisualizer r =>
        exact ⟨List.prefix_rfl, ⟨[r], rfl⟩, List.prefix_rfl,
               List.prefix_rfl, List.prefix_rfl⟩
    | registerSemanticTypes ts =>
        exact ⟨List.prefix_rfl, List.prefix_rfl, ⟨ts, rfl⟩,
               List.prefix_rfl, List.prefix_rfl⟩
    | registerFormats fs =>
        exact ⟨List.prefix_rfl, List.prefix_rfl, List.prefix_rfl,
               ⟨fs, rfl⟩, List.prefix_rfl⟩
    | registerArtifactClass a =>
        exact ⟨List.prefix_rfl, List.prefix_rfl, List.prefix_rfl,
               List.prefix_rfl, ⟨[a], rfl⟩⟩
    | importTransformersModule =>
        exact ⟨List.prefix_rfl, List.prefix_rfl, List.prefix_rfl,
               List.prefix_rfl, List.prefix_rfl⟩

/-- Witness for C6 at a concrete state and statement. -/
theorem c6_frame_witness :
    (evalSetup "1.0" (initState ())).hostData = (initState ()).hostData
    ∧ Stmt.loadCitations ≠ Stmt.createPlugin
    ∧ (initState ()).plugin.formats <+:
        (applyStmt "1.0" (initState ()) Stmt.loadCitations).plugin.formats :=
  ⟨(c6_frame "1.0" (initState ()) Stmt.loadCitations).1, by decide,
   ((c6_frame "1.0" (initState ()) Stmt.loadCitations).2.2
      (by decide)).2.2.2.1⟩

/-- C7: the module bodies contain no exception handling: under any
fallible interpretation of the statements, if running some prefix of the
module body succeeds and the next statement raises, the whole module
evaluation propagates exactly that error, and the statements after the
failing one are never run (the result coincides with running only up to
the failing statement, whatever follows it). -/
theorem c7_error_propagation {α ε : Type}
    (interp : Stmt → HostState α → Except ε (HostState α))
    (pre : List Stmt) (s : Stmt) (post : List Stmt)
    (σ0 σ : HostState α) (e : ε)
    (hsplit : moduleBody = pre ++ s :: post)
    (hpre : runStmtsE interp pre σ0 = Except.ok σ)
    (hfail : interp s σ = Except.error e) :
    runStmtsE interp moduleBody σ0 = Except.error e
    ∧ runStmtsE interp moduleBody σ0 =
        runStmtsE interp (pre ++ [s]) σ0 := by
  have h1 : runStmtsE interp moduleBody σ0 = Except.error e := by
    rw [hsplit, runStmtsE_append, hpre]
    simp [runStmtsE, hfail]
  have h2 : runStmtsE interp (pre ++ [s]) σ0 = Except.error e := by
    rw [runStmtsE_append, hpre]
    simp [runStmtsE, hfail]
  exact ⟨h1, h1.trans h2.symm⟩

/-- Witness for C7: an interpreter in which the citation load raises. -/
theorem c7_error_propagation_witness :
    moduleBody = [] ++ Stmt.loadCitations :: moduleBody.tail
    ∧ runStmtsE failingLoadInterp [] (initState ()) =
        Except.ok (initState ())
    ∧ failingLoadInterp Stmt.loadCitations (initState ()) =
        Except.error "citation load failure"
    ∧ runStmtsE failingLoadInterp moduleBody (initState ()) =
        Except.error "citation load failure" :=
  ⟨rfl, rfl, rfl,
   (c7_error_propagation failingLoadInterp [] Stmt.loadCitations
      moduleBody.tail (initState ()) (initState ())
      "citation load failure" rfl rfl rfl).1⟩

/-- C8: `standard_workflow` is among the names imported from
`q2_qsip2.workflow` but is bound by no registration: it is not among the
registered methods nor among the registered visualizers. -/
theorem c8_standard_workflow_not_registered (version : String) :
    workflowImports.contains .standard_workflow = true
    ∧ ((finalPlugin version).methods.map (fun r => r.function)).contains
        .standard_workflow = false
    ∧ ((finalPlugin version).visualizers.map
        (fun r => r.function)).contains .standard_workflow = false :=
  ⟨rfl, rfl, rfl⟩

/-- C9: registration order: every method or visualizer registration
precedes every type-level registration (semantic type, formats, artifact
class), and the transformers-module import comes only after the format
registration. -/
theorem c9_registration_order (i j : Fin moduleBody.length) :
    ((moduleBody.get i).isFunctionRegistration = true →
      (moduleBody.get j).isTypeLevelRegistration = true → i < j)
    ∧ ((moduleBody.get i).isFormatRegistration = true →
      (moduleBody.get j).isTransformersImport = true → i < j) := by
  revert i j
  decide

/-- Witness for C9 at the first method registration and the format
registration. -/
theorem c9_registration_order_witness :
    (moduleBody.get ⟨2, by decide⟩).isFunctionRegistration = true
    ∧ (moduleBody.get ⟨12, by decide⟩).isTypeLevelRegistration = true
    ∧ (⟨2, by decide⟩ : Fin moduleBody.length) < ⟨12, by decide⟩ :=
  ⟨by decide, by decide,
   (c9_registration_order ⟨2, by decide⟩ ⟨12, by decide⟩).1
     (by decide) (by decide)⟩

/-- C10: every one of the nine registrations carries an empty citation
list, and the only citation attached anywhere is the key
`Caporaso-Bolyen-2024`, loaded from citations.bib and attached to the
plugin object itself. -/
theorem c10_citations (version : String) :
    (finalPlugin version).methods.all
        (fun r => r.citations.isEmpty) = true
    ∧ (finalPlugin version).visualizers.all
        (fun r => r.citations.isEmpty) = true
    ∧ (finalPlugin version).citations = ["Caporaso-Bolyen-2024"]
    ∧ (evalSetup version (initState ())).citations = citationsBibKeys :=
  ⟨rfl, rfl, rfl, rfl⟩

end Q2Qsip2
